import Mathlib

/-!
Verification of the session-scoped conversational orchestration loop of the
travel-profiler repository (src/src/chat.py, src/src/url_data_extractor.py,
src/src/instagram_image_extractor.py).

External collaborators (the agents-SDK `Runner.run`, the aiohttp HTTP client)
are modelled as oracle parameters enumerating their observable outcomes:
either they raise a given exception class or they return a given value.
`asyncio.gather` is modelled with its documented semantics: the result list is
in the order of the input awaitables, regardless of completion order.
-/

set_option maxRecDepth 4096
set_option linter.unusedVariables false

/-- A single conversation turn as stored in `conversation_histories`:
a role tag plus a content payload. -/
structure Turn where
  role : String
  content : String
deriving DecidableEq, Repr

/-- The `ImageAnalysis` pydantic model shared (up to the `is_image` default) by
`chat.py` and `url_data_extractor.py`. -/
structure ImageAnalysis where
  description : String
  overview : String
  location : Option String := none
  error : Option String := none
  is_image : Bool := false
deriving DecidableEq, Repr

/-- The `UserProfile` pydantic model produced by the synthesizer. -/
structure UserProfile where
  summary : String
  analysis_details : List ImageAnalysis
deriving DecidableEq, Repr

/-- Python truthiness of an `Optional[str]` field: truthy iff present and
non-empty (used by `elif analysis_result.error:` and `not res.error`). -/
def errTruthy : Option String → Bool
  | none => false
  | some s => !(s == "")

instance : Inhabited ImageAnalysis := ⟨⟨"", "", none, none, false⟩⟩

/-- Number of stored Turns whose role is `assistant`. -/
def assistantCount : List Turn → Nat
  | [] => 0
  | t :: rest => (if t.role == "assistant" then 1 else 0) + assistantCount rest

/-- Dictionary lookup on an association list (python `dict` access). -/
def lookupKey (k : String) : List (String × α) → Option α
  | [] => none
  | (k2, v) :: rest => if k2 = k then some v else lookupKey k rest

/-- Dictionary deletion on an association list (python `del d[k]`). -/
def eraseKey (k : String) : List (String × α) → List (String × α)
  | [] => []
  | (k2, v) :: rest => if k2 = k then eraseKey k rest else (k2, v) :: eraseKey k rest

/-- Character-list prefix test (helper for the substring checks below). -/
def charsLead : List Char → List Char → Bool
  | [], _ => true
  | _ :: _, [] => false
  | a :: as, b :: bs => a == b && charsLead as bs

/-- Python `pat in s` on character lists: `pat` occurs contiguously in `l`. -/
def charsOccur (pat : List Char) : List Char → Bool
  | [] => pat.isEmpty
  | c :: rest => charsLead pat (c :: rest) || charsOccur pat rest

/-- The whitespace class of python `str.strip()`. -/
def isPySpace (c : Char) : Bool :=
  c == ' ' || c == '\t' || c == '\n' || c == '\r' || c == '\x0b' || c == '\x0c'

/-- Python `str.strip()`: drop leading and trailing whitespace. -/
def pyStrip (s : String) : String :=
  ⟨((s.data.dropWhile isPySpace).reverse.dropWhile isPySpace).reverse⟩

/-- Python `str.lower()` (ASCII case folding, as used on the inputs here). -/
def pyLower (s : String) : String :=
  ⟨s.data.map Char.toLower⟩

/-- Python `str.startswith(pre)`. -/
def pyStartsWith (s pre : String) : Bool :=
  charsLead pre.data s.data

/-- A failure captured as data: success flag cleared and a non-empty
human-readable reason. -/
def failsWithReason (a : ImageAnalysis) : Prop :=
  a.is_image = false ∧ ∃ e, a.error = some e ∧ e ≠ ""

namespace Chat

/-- Observable outcomes of `Runner.run(image_analyzer_agent, ...)` inside
`chat.py`'s `analyze_single_url`: the run raises an `aiohttp.ClientError`, an
`asyncio.TimeoutError`, any other exception (including pydantic validation
failures of `final_output_as`), or it returns with `result.final_output`
either falsy (`none`) or a parsed `ImageAnalysis` value. -/
inductive RunOutcome where
  | raisesClient (msg : String)
  | raisesTimeout
  | raisesOther (msg : String)
  | returns (finalOutput : Option ImageAnalysis)
deriving DecidableEq

/-- The check `"validation error" in str(e).lower()` of `chat.py`. -/
def containsValidationErr (m : String) : Bool :=
  charsOccur "validation error".toList (pyLower m).toList

/-- `chat.py` `analyze_single_url`. `valid` is the boolean result of
`is_valid_url url`; `run` is the external-runner oracle. The function is
total: every failure is returned as an `ImageAnalysis` value, never raised. -/
def analyze_single_url (url : String) (valid : Bool) (run : RunOutcome) : ImageAnalysis :=
  if !valid then
    { description := "", overview := "",
      error := some ("Invalid URL format: " ++ url), is_image := false }
  else
    match run with
    | .raisesClient m =>
        { description := "", overview := "",
          error := some ("Network error: " ++ m), is_image := false }
    | .raisesTimeout =>
        { description := "", overview := "",
          error := some "Timeout accessing URL", is_image := false }
    | .raisesOther m =>
        { description := "", overview := "",
          error := some (if containsValidationErr m then
              "Model output validation failed: " ++ m
            else "Analysis failed: " ++ m),
          is_image := false }
    | .returns none =>
        { description := "", overview := "",
          error := some "Agent run failed: No output produced", is_image := false }
    | .returns (some a) =>
        -- `if not analysis_result:` is never taken: a pydantic model instance is truthy.
        -- `analysis_result.is_image is None` is never true: `is_image` is a plain bool.
        if errTruthy a.error then { a with is_image := false } else a

/-- The per-claim classification of the oracle outcomes that constitute a
failure mode of `chat.py analyze_single_url` (invalid URL, network error,
timeout, missing model output, any other exception). -/
def failureMode (valid : Bool) (run : RunOutcome) : Bool :=
  !valid || (match run with | .returns (some _) => false | _ => true)

end Chat

namespace UrlDataExtractor

/-- Outcomes of the `session.head(url, ...)` preflight in
`url_data_extractor.py`: the HEAD request returns a response whose
Content-Type header is the given string, or raises. -/
inductive HeadOutcome where
  | ok (contentType : String)
  | raisesClient (msg : String)
  | raisesTimeout
  | raisesOther (msg : String)
deriving DecidableEq

/-- Outcomes of `Runner.run(image_analyzer_agent, ...)` followed by
`final_output_as` in `url_data_extractor.py` (a missing output makes
`final_output_as` / the attribute assignment raise, folded into
`raisesOther`). -/
inductive RunOutcome where
  | raisesClient (msg : String)
  | raisesTimeout
  | raisesOther (msg : String)
  | returns (a : ImageAnalysis)
deriving DecidableEq

/-- The content-policy check of `url_data_extractor.py`'s general handler. -/
def contentPolicyErr (m : String) : Bool :=
  charsOccur "Input image may contain content that is not allowed".toList m.toList ||
    charsOccur "Invalid image url".toList m.toList

/-- `url_data_extractor.py` `analyze_single_url`. `valid` is the boolean
result of `is_valid_url url`; `head` and `run` are the external oracles. -/
def analyze_single_url (url : String) (valid : Bool)
    (head : HeadOutcome) (run : RunOutcome) : ImageAnalysis :=
  if !valid then
    { description := "", overview := "", location := none,
      error := some ("Invalid URL format: " ++ url), is_image := false }
  else
    match head with
    | .raisesClient m =>
        { description := "", overview := "", location := none,
          error := some ("Network error: " ++ m), is_image := false }
    | .raisesTimeout =>
        { description := "", overview := "", location := none,
          error := some "Timeout accessing URL", is_image := false }
    | .raisesOther m =>
        { description := "", overview := "", location := none,
          error := some (if contentPolicyErr m then "Analysis error: " ++ m
            else "Analysis failed: " ++ m),
          is_image := false }
    | .ok ct =>
        let contentType := pyLower ct
        if !(pyStartsWith contentType "image/") then
          { description := "", overview := "", location := none,
            error := some ("URL content type is \x27" ++ contentType ++ "\x27, not an image."),
            is_image := false }
        else
          match run with
          | .raisesClient m =>
              { description := "", overview := "", location := none,
                error := some ("Network error: " ++ m), is_image := false }
          | .raisesTimeout =>
              { description := "", overview := "", location := none,
                error := some "Timeout accessing URL", is_image := false }
          | .raisesOther m =>
              { description := "", overview := "", location := none,
                error := some (if contentPolicyErr m then "Analysis error: " ++ m
                  else "Analysis failed: " ++ m),
                is_image := false }
          | .returns a => { a with is_image := true, error := none }

/-- Oracle outcomes that constitute a failure mode of
`url_data_extractor.py analyze_single_url`. -/
def failureMode (valid : Bool) (head : HeadOutcome) (run : RunOutcome) : Bool :=
  !valid || (match head with
    | .ok ct => !(pyStartsWith (pyLower ct) "image/") ||
        (match run with | .returns _ => false | _ => true)
    | _ => true)

end UrlDataExtractor

/-- The per-call fan-out oracle: the `ImageAnalysis` value that the `i`-th
concurrently scheduled `analyze_single_url` task (for the given URL) resolves
to. Indexing by position keeps calls on duplicate URLs independent. -/
abbrev AnalyzeOracle := Nat → String → ImageAnalysis

/-- `asyncio.gather(*analysis_tasks)` over
`[analyze_single_url(session, url) for url in urls]`: one result per task,
collected in input order regardless of completion order (documented
`asyncio.gather` semantics). -/
def gatherAnalyses (urls : List String) (analyze : AnalyzeOracle) : List ImageAnalysis :=
  (List.range urls.length).map fun i => analyze i (urls.getD i "")

namespace UrlDataExtractor

/-- `process_urls` of `url_data_extractor.py`: returns `[]` for an empty URL
list, otherwise gathers the concurrent per-URL analyses in input order and
extends `all_analysis_results` with them. -/
def process_urls (urls : List String) (analyze : AnalyzeOracle) : List ImageAnalysis :=
  if urls.isEmpty then [] else gatherAnalyses urls analyze

end UrlDataExtractor

namespace Chat

/-- The `isinstance(res, ImageAnalysis)` guard of `chat.py`: in the typed
embedding every gathered result is an `ImageAnalysis`, so the guard holds. -/
def isImageAnalysisInstance (_ : ImageAnalysis) : Bool := true

/-- `all_analysis_results` of `chat_endpoint`: the gathered results filtered
by the `isinstance` comprehension. -/
def all_analysis_results (urls : List String) (analyze : AnalyzeOracle) : List ImageAnalysis :=
  (gatherAnalyses urls analyze).filter isImageAnalysisInstance

/-- `successful_analyses` of `chat_endpoint`:
`[res for res in all_analysis_results if res.is_image and not res.error]`. -/
def successful_analyses (results : List ImageAnalysis) : List ImageAnalysis :=
  results.filter fun r => r.is_image && !(errTruthy r.error)

/-- One entry of `result.new_items` from the travel-profiler agent run:
a message output with its text, a `get_image_urls_from_source` tool-call item
whose `.output` either is a python list (`some urls`) or is not a list
(`none`), or any other run item as it appears in `result.to_input_list()`. -/
inductive NewItem where
  | messageOutput (text : String)
  | toolCallGetImages (output : Option (List String))
  | otherItem (role : String) (content : String)
deriving DecidableEq

/-- How `result.to_input_list()` renders a new item into the history. -/
def renderNewItem : NewItem → Turn
  | .messageOutput t => ⟨"assistant", t⟩
  | .toolCallGetImages _ => ⟨"tool_call", "get_image_urls_from_source"⟩
  | .otherItem r c => ⟨r, c⟩

/-- The `agent_response_text` accumulation loop over `result.new_items`:
every truthy message-output text contributes `text.strip() + "\n"`. -/
def agentTextFromItems : List NewItem → String
  | [] => ""
  | .messageOutput t :: rest =>
      (if t = "" then "" else pyStrip t ++ "\n") ++ agentTextFromItems rest
  | _ :: rest => agentTextFromItems rest

/-- The `extracted_urls` assignment loop over `result.new_items`: the last
`get_image_urls_from_source` tool call whose output is a list wins; non-list
outputs only print a warning and leave `extracted_urls` unchanged. -/
def extractedUrlsOf (items : List NewItem) : Option (List String) :=
  items.foldl
    (fun acc item =>
      match item with
      | .toolCallGetImages (some l) => some l
      | _ => acc)
    none

/-- Outcome of `Runner.run(travel_profiler_agent, current_history, ...)`:
either it raises (reaching the outer `except` and HTTP 500), or it returns a
result with the given `new_items` and truthiness of its `error` attribute. -/
inductive RunnerRun where
  | raises
  | returns (items : List NewItem) (errAttr : Bool)

/-- Outcome of `Runner.run(profile_synthesizer_agent, ...)`: either it raises
(reaching the outer `except`), or it returns with `final_output` falsy
(`none`) or a parsed `UserProfile`. -/
inductive SynthRun where
  | raises
  | returns (finalOutput : Option UserProfile)
deriving DecidableEq

def noUrlsFoundMsg : String :=
  "I checked the page, but couldn\x27t find any image URLs to analyze. Please provide a different URL with visible images."

def noImagesMsg : String :=
  "I tried fetching images from that URL, but couldn\x27t successfully analyze any. Could you provide a different URL, perhaps one from a public Instagram profile, Pinterest board, or a travel blog post with clear images?"

def synthesisFailedMsg : String :=
  "I analyzed the images, but had trouble creating a profile summary."

def agentErrorMsg : String :=
  "Sorry, I encountered an internal error. Could you please rephrase?"

/-- `summary_for_user` built around the synthesized profile summary. -/
def summaryForUser (s : String) : String :=
  "Okay, I\x27ve analyzed the images from the URL you provided! Based on what I saw, here\x27s a little summary of your visual travel preferences:\n\n"
    ++ s ++
    "\n\nWhat do you think? Does that sound like you? We can explore destinations based on this!"

/-- Abbreviated `user_profile.model_dump_json()` (external pydantic
serialization); only the role of the stored tool Turn matters to the claims. -/
def model_dump_json (p : UserProfile) : String :=
  "\x7b\"summary\": \"" ++ p.summary ++ "\"\x7d"

/-- The tail of `chat_endpoint`: if `agent_response_text.strip()` is empty it
is replaced by a fixed holding response, and the HTTP response carries the
stripped text. -/
def respFinalize (txt : String) (extractedSome : Bool) : String :=
  pyStrip (if pyStrip txt = "" then
      (if extractedSome then "Okay, I\x27m processing that..." else "How can I help you further?")
    else txt)

/-- The `ChatResponse` body returned for the turn (the echoed `session_id`
field is omitted). -/
structure ChatResponse where
  response : String
  status : String
deriving DecidableEq, Repr

/-- Observable effect of one `/chat` request: the history stored in
`conversation_histories[session_id]` afterwards, the HTTP response
(`none` models the re-raised HTTP 500), and whether the synthesizer
collaborator was invoked. -/
structure TurnResult where
  storedHistory : List Turn
  response : Option ChatResponse
  synthCalled : Bool
deriving DecidableEq, Repr

/-- `chat_endpoint` for one session: `hist` is the stored pre-turn history.
The inbound user message is appended in place to the stored list before the
`try` block, so it persists even when an exception escapes to the outer
handler; `conversation_histories[session_id] = final_updated_history` only
runs on the non-raising paths. -/
def chat_endpoint (hist : List Turn) (userMsg : String) (runner : RunnerRun)
    (analyze : AnalyzeOracle) (synth : SynthRun) : TurnResult :=
  let current_history := hist ++ [⟨"user", userMsg⟩]
  match runner with
  | .raises => ⟨current_history, none, false⟩
  | .returns items errAttr =>
    let final0 := current_history ++ items.map renderNewItem
    match extractedUrlsOf items with
    | some urls =>
      if urls.isEmpty then
        ⟨final0 ++ [⟨"assistant", noUrlsFoundMsg⟩],
          some ⟨respFinalize noUrlsFoundMsg true, "no_urls_found"⟩, false⟩
      else
        let succ := successful_analyses (all_analysis_results urls analyze)
        if succ.isEmpty then
          ⟨final0 ++ [⟨"assistant", noImagesMsg⟩],
            some ⟨respFinalize noImagesMsg true, "analysis_failed"⟩, false⟩
        else
          match synth with
          | .raises => ⟨current_history, none, true⟩
          | .returns none =>
            ⟨final0 ++ [⟨"assistant", synthesisFailedMsg⟩],
              some ⟨respFinalize synthesisFailedMsg true, "synthesis_failed"⟩, true⟩
          | .returns (some profile) =>
            let s := summaryForUser profile.summary
            ⟨final0 ++ [⟨"tool", model_dump_json profile⟩, ⟨"assistant", s⟩],
              some ⟨respFinalize s true, "profile_generated"⟩, true⟩
    | none =>
      if errAttr then
        ⟨current_history ++ [⟨"assistant", agentErrorMsg⟩],
          some ⟨respFinalize agentErrorMsg false, "agent_error"⟩, false⟩
      else
        ⟨final0, some ⟨respFinalize (agentTextFromItems items) false, "ok"⟩, false⟩

/-- The global in-memory session state: `conversation_histories` and the key
set of `session_locks` (lock identity is modelled separately for the
concurrency claims). -/
structure SessionStore where
  conversation_histories : List (String × List Turn)
  session_locks : List String
deriving DecidableEq, Repr

structure ClearResult where
  state : SessionStore
  status : String
deriving DecidableEq, Repr

/-- `clear_endpoint`: `async with session_locks[session_id]` lazily creates a
lock entry (defaultdict); if the session has a stored history both the
history and the lock entry are deleted and `"cleared"` is returned, otherwise
the state is untouched and `"not_found_or_already_cleared"` is returned. -/
def clear_endpoint (st : SessionStore) (session_id : String) : ClearResult :=
  let locks1 := if st.session_locks.contains session_id then st.session_locks
    else session_id :: st.session_locks
  if (lookupKey session_id st.conversation_histories).isSome then
    ⟨⟨eraseKey session_id st.conversation_histories,
        locks1.filter (fun s => !(s == session_id))⟩, "cleared"⟩
  else
    ⟨⟨st.conversation_histories, locks1⟩, "not_found_or_already_cleared"⟩

/-- `conversation_histories[session_id]` at the start of a turn: the
defaultdict materializes an empty history for an absent key. -/
def getOrCreateHistory (st : SessionStore) (session_id : String) : List Turn :=
  (lookupKey session_id st.conversation_histories).getD []

end Chat

namespace Instagram

/-- The hard-coded list returned by `get_instagram_data` in
`instagram_image_extractor.py` (the real Apify call is commented out). -/
def instagram_image_urls : List String := [
  "https://instagram.fltn3-2.fna.fbcdn.net/v/t51.29350-15/223390606_3042042959360602_7440794659899633636_n.jpg?stp=dst-jpg_e35_s1080x1080_tt6&_nc_ht=instagram.fltn3-2.fna.fbcdn.net&_nc_cat=110&_nc_oc=Q6cZ2QE_sH98rUJkNzmRaeo5Oi7wm7qXX5CA0wS7ERQGIo98pMyhVy6xjdkh0iKqn5_9eMIszwTMO5UUGTqTKNtG9qx3&_nc_ohc=O3jBH4dUiPMQ7kNvwGI4gPf&_nc_gid=5jTbcYFyTX93vYC0ooOoqQ&edm=APs17CUBAAAA&ccb=7-5&oh=00_AfFagM-f-twYLgc6b9m9P964F1Yr_2DRBog9FK_k7R-S6w&oe=681294A0&_nc_sid=10d13b",
  "https://instagram.fltn3-1.fna.fbcdn.net/v/t51.29350-15/225043600_173495351388663_3417796725639752925_n.jpg?stp=dst-jpg_e35_s1080x1080_tt6&_nc_ht=instagram.fltn3-1.fna.fbcdn.net&_nc_cat=103&_nc_oc=Q6cZ2QE_sH98rUJkNzmRaeo5Oi7wm7qXX5CA0wS7ERQGIo98pMyhVy6xjdkh0iKqn5_9eMIszwTMO5UUGTqTKNtG9qx3&_nc_ohc=RDiu4cMv9xgQ7kNvwEaEWD6&_nc_gid=5jTbcYFyTX93vYC0ooOoqQ&edm=APs17CUBAAAA&ccb=7-5&oh=00_AfExl5ru5ASicfzNWmdCqwQE_Am2-I_8e7ThUcSoOiUi4w&oe=6812889D&_nc_sid=10d13b",
  "https://instagram.fltn3-2.fna.fbcdn.net/v/t51.29350-15/224472678_4288250224530438_1333112829596207137_n.jpg?stp=dst-jpg_e35_s1080x1080_tt6&_nc_ht=instagram.fltn3-2.fna.fbcdn.net&_nc_cat=106&_nc_oc=Q6cZ2QE_sH98rUJkNzmRaeo5Oi7wm7qXX5CA0wS7ERQGIo98pMyhVy6xjdkh0iKqn5_9eMIszwTMO5UUGTqTKNtG9qx3&_nc_ohc=LCnlXimCGRwQ7kNvwEYjl3C&_nc_gid=5jTbcYFyTX93vYC0ooOoqQ&edm=APs17CUBAAAA&ccb=7-5&oh=00_AfGytr1zM-Vf_iyaVdcM4hjdiXZk26csqPcqnplnCka9aQ&oe=68128906&_nc_sid=10d13b",
  "https://instagram.fltn3-1.fna.fbcdn.net/v/t51.29350-15/222873170_1040313216741624_6871161088862286710_n.jpg?stp=dst-jpg_e35_s1080x1080_tt6&_nc_ht=instagram.fltn3-1.fna.fbcdn.net&_nc_cat=100&_nc_oc=Q6cZ2QE_sH98rUJkNzmRaeo5Oi7wm7qXX5CA0wS7ERQGIo98pMyhVy6xjdkh0iKqn5_9eMIszwTMO5UUGTqTKNtG9qx3&_nc_ohc=mub3PihTr8IQ7kNvwFnCpq0&_nc_gid=5jTbcYFyTX93vYC0ooOoqQ&edm=APs17CUBAAAA&ccb=7-5&oh=00_AfFuDx3acQ1tWZiC0KRmMrf3yJnH6c84BLSUfR8eZF7hKA&oe=68129754&_nc_sid=10d13b",
  "https://instagram.fltn3-2.fna.fbcdn.net/v/t51.29350-15/224059418_510976860008382_2544112052215191453_n.jpg?stp=dst-jpg_e35_s1080x1080_tt6&_nc_ht=instagram.fltn3-2.fna.fbcdn.net&_nc_cat=106&_nc_oc=Q6cZ2QE_sH98rUJkNzmRaeo5Oi7wm7qXX5CA0wS7ERQGIo98pMyhVy6xjdkh0iKqn5_9eMIszwTMO5UUGTqTKNtG9qx3&_nc_ohc=Tz8rDJpBTeIQ7kNvwFmiusE&_nc_gid=5jTbcYFyTX93vYC0ooOoqQ&edm=APs17CUBAAAA&ccb=7-5&oh=00_AfEcCYXmqT3b1jzRk_C5Ro-xhai2kBAEIr_7y2IWrIZeCw&oe=68127C74&_nc_sid=10d13b",
  "https://instagram.fltn3-1.fna.fbcdn.net/v/t51.29350-15/224103566_347797140251385_8895094865939233394_n.jpg?stp=dst-jpg_e35_s1080x1080_tt6&_nc_ht=instagram.fltn3-1.fna.fbcdn.net&_nc_cat=109&_nc_oc=Q6cZ2QE_sH98rUJkNzmRaeo5Oi7wm7qXX5CA0wS7ERQGIo98pMyhVy6xjdkh0iKqn5_9eMIszwTMO5UUGTqTKNtG9qx3&_nc_ohc=r8m5_aXGQQ0Q7kNvwFFxxqa&_nc_gid=5jTbcYFyTX93vYC0ooOoqQ&edm=APs17CUBAAAA&ccb=7-5&oh=00_AfFsMd6vkCPAW8c32mUme8Kj4MGL3_Ic6EnmegmTtSw-Uw&oe=6812867A&_nc_sid=10d13b",
  "https://instagram.fltn3-1.fna.fbcdn.net/v/t51.29350-15/222795842_1604430873096371_3712226091082577865_n.jpg?stp=dst-jpg_e35_s1080x1080_tt6&_nc_ht=instagram.fltn3-1.fna.fbcdn.net&_nc_cat=111&_nc_oc=Q6cZ2QE_sH98rUJkNzmRaeo5Oi7wm7qXX5CA0wS7ERQGIo98pMyhVy6xjdkh0iKqn5_9eMIszwTMO5UUGTqTKNtG9qx3&_nc_ohc=j9ND2_5aFhIQ7kNvwE9Gio0&_nc_gid=5jTbcYFyTX93vYC0ooOoqQ&edm=APs17CUBAAAA&ccb=7-5&oh=00_AfE4PxbGoJtVZGVILsak_Yap5zqEjluP2BUpArPDP0oQ7A&oe=68128E09&_nc_sid=10d13b",
  "https://instagram.fltn3-1.fna.fbcdn.net/v/t51.29350-15/222495093_4329049450495067_3257865335139794392_n.jpg?stp=dst-jpg_e35_s1080x1080_tt6&_nc_ht=instagram.fltn3-1.fna.fbcdn.net&_nc_cat=111&_nc_oc=Q6cZ2QE_sH98rUJkNzmRaeo5Oi7wm7qXX5CA0wS7ERQGIo98pMyhVy6xjdkh0iKqn5_9eMIszwTMO5UUGTqTKNtG9qx3&_nc_ohc=E0fOymf0CwwQ7kNvwG36eMd&_nc_gid=5jTbcYFyTX93vYC0ooOoqQ&edm=APs17CUBAAAA&ccb=7-5&oh=00_AfHrmjA-OR8vaZuKRRL0LL-9Iy8vfLL9JBsCuBd3bVCb7g&oe=68128E3D&_nc_sid=10d13b",
  "https://instagram.fltn3-2.fna.fbcdn.net/v/t51.29350-15/225603682_353019579726016_3031052545333368688_n.jpg?stp=dst-jpg_e35_s1080x1080_tt6&_nc_ht=instagram.fltn3-2.fna.fbcdn.net&_nc_cat=104&_nc_oc=Q6cZ2QE_sH98rUJkNzmRaeo5Oi7wm7qXX5CA0wS7ERQGIo98pMyhVy6xjdkh0iKqn5_9eMIszwTMO5UUGTqTKNtG9qx3&_nc_ohc=nIGh9JvsQy8Q7kNvwEJCsaY&_nc_gid=5jTbcYFyTX93vYC0ooOoqQ&edm=APs17CUBAAAA&ccb=7-5&oh=00_AfG_6WVPiD2Fpx1HpX7wFJArzuaMIkc9wyYp9gYghwme8w&oe=681281B1&_nc_sid=10d13b",
  "https://instagram.fltn3-2.fna.fbcdn.net/v/t51.29350-15/223055821_772089190131776_9022304724914632422_n.jpg?stp=dst-jpg_e35_s1080x1080_tt6&_nc_ht=instagram.fltn3-2.fna.fbcdn.net&_nc_cat=108&_nc_oc=Q6cZ2QE_sH98rUJkNzmRaeo5Oi7wm7qXX5CA0wS7ERQGIo98pMyhVy6xjdkh0iKqn5_9eMIszwTMO5UUGTqTKNtG9qx3&_nc_ohc=w00oWvTKGLcQ7kNvwFqyg2f&_nc_gid=5jTbcYFyTX93vYC0ooOoqQ&edm=APs17CUBAAAA&ccb=7-5&oh=00_AfEsF0j2IYFGCd1ipi_P9kDz3xeDFHA-Vl1hxtm23-D2bw&oe=68128945&_nc_sid=10d13b",
  "https://scontent-man2-1.cdninstagram.com/v/t51.29350-15/263434775_326324875679222_4966329092414923646_n.webp?stp=dst-jpg_e35_p1080x1080_tt6&_nc_ht=scontent-man2-1.cdninstagram.com&_nc_cat=102&_nc_oc=Q6cZ2QG75Lhi8uvFG7iSmkK5kyjzl7mqBiHGISqn0Nu-coFOSsA029axfs6PB4-NhbJWRDY&_nc_ohc=qU3R6spP9hkQ7kNvwGchxZg&_nc_gid=W1zhJjQIIcifEZF6vLUgwg&edm=APs17CUBAAAA&ccb=7-5&oh=00_AfHkT1rtNjVnNUHszT5lslLptjM3KsjuKvL-B6K2iDxgNA&oe=68127C3F&_nc_sid=10d13b",
  "https://scontent-man2-1.cdninstagram.com/v/t51.29350-15/263175223_667655547727545_5155513412274334419_n.webp?stp=dst-jpg_e35_p1080x1080_tt6&_nc_ht=scontent-man2-1.cdninstagram.com&_nc_cat=109&_nc_oc=Q6cZ2QG75Lhi8uvFG7iSmkK5kyjzl7mqBiHGISqn0Nu-coFOSsA029axfs6PB4-NhbJWRDY&_nc_ohc=BQlCy75B2BEQ7kNvwGvK34Y&_nc_gid=W1zhJjQIIcifEZF6vLUgwg&edm=APs17CUBAAAA&ccb=7-5&oh=00_AfGpX65wsk_g4N-_6pn03n4PDoHjfJLoHNF5YCIHSvQD4g&oe=68128744&_nc_sid=10d13b",
  "https://scontent-man2-1.cdninstagram.com/v/t51.29350-15/263737150_1252800688478634_7778634919652907228_n.webp?stp=dst-jpg_e35_p1080x1080_tt6&_nc_ht=scontent-man2-1.cdninstagram.com&_nc_cat=106&_nc_oc=Q6cZ2QG75Lhi8uvFG7iSmkK5kyjzl7mqBiHGISqn0Nu-coFOSsA029axfs6PB4-NhbJWRDY&_nc_ohc=ndyac_i4uMgQ7kNvwHzx_Fs&_nc_gid=W1zhJjQIIcifEZF6vLUgwg&edm=APs17CUBAAAA&ccb=7-5&oh=00_AfHudSIYQS2RhnAHGLCUUtQ-UKNP0gXsiB62f5DWT77sbg&oe=68129312&_nc_sid=10d13b",
  "https://scontent-man2-1.cdninstagram.com/v/t51.29350-15/264193519_915547845743240_6180188134341037371_n.webp?stp=dst-jpg_e35_p1080x1080_tt6&_nc_ht=scontent-man2-1.cdninstagram.com&_nc_cat=108&_nc_oc=Q6cZ2QG75Lhi8uvFG7iSmkK5kyjzl7mqBiHGISqn0Nu-coFOSsA029axfs6PB4-NhbJWRDY&_nc_ohc=vhZ3VzhEbiMQ7kNvwFGtX97&_nc_gid=W1zhJjQIIcifEZF6vLUgwg&edm=APs17CUBAAAA&ccb=7-5&oh=00_AfEUYdfoBADX2uhmfqplXyFOZqo1yP_f1Khx1piBNrqC0A&oe=68128A55&_nc_sid=10d13b",
  "https://scontent-man2-1.cdninstagram.com/v/t51.29350-15/263666626_295218352615398_7847555531909550126_n.webp?stp=dst-jpg_e35_p1080x1080_tt6&_nc_ht=scontent-man2-1.cdninstagram.com&_nc_cat=106&_nc_oc=Q6cZ2QG75Lhi8uvFG7iSmkK5kyjzl7mqBiHGISqn0Nu-coFOSsA029axfs6PB4-NhbJWRDY&_nc_ohc=YdA0T-z-aRsQ7kNvwEjzyWJ&_nc_gid=W1zhJjQIIcifEZF6vLUgwg&edm=APs17CUBAAAA&ccb=7-5&oh=00_AfGDHFj_00zxj5Xc5tPGRSRCecJ_1X8O8di2gMhdk_7qMA&oe=68129056&_nc_sid=10d13b",
  "https://scontent-man2-1.cdninstagram.com/v/t51.29350-15/263442993_604535390758805_7827531428325428452_n.webp?stp=dst-jpg_e35_p1080x1080_tt6&_nc_ht=scontent-man2-1.cdninstagram.com&_nc_cat=105&_nc_oc=Q6cZ2QG75Lhi8uvFG7iSmkK5kyjzl7mqBiHGISqn0Nu-coFOSsA029axfs6PB4-NhbJWRDY&_nc_ohc=Tsi6g73Kg9kQ7kNvwG7_ekX&_nc_gid=W1zhJjQIIcifEZF6vLUgwg&edm=APs17CUBAAAA&ccb=7-5&oh=00_AfH5DO_bmQWNp5wBLx0f-h1tb3orQmbpOBDT-hyjo32TQg&oe=68129364&_nc_sid=10d13b"
]

/-- `get_instagram_data` of `instagram_image_extractor.py`. The `ValueError`
for an invalid `search_type` is the `Except.error` case; on the three valid
search types the function computes `direct_urls`, never uses it, and returns
the hard-coded list (the Apify call is commented out). `limit`,
`results_type` and `add_parent_data` are accepted and ignored. -/
def get_instagram_data (username : String) (limit : Nat) (search_type : String)
    (results_type : String) (add_parent_data : Bool) : Except String (List String) :=
  if search_type = "user" ∨ search_type = "hashtag" ∨ search_type = "url" then
    Except.ok instagram_image_urls
  else
    Except.error ("Invalid search_type: " ++ search_type ++
      ". Must be \x27user\x27, \x27hashtag\x27, or \x27url\x27")

/-- `get_instagram_images_urls(username, imgs_limit)`: delegates with
`search_type="user"` and the python defaults for the remaining arguments. -/
def get_instagram_images_urls (username : String) (imgs_limit : Nat) :
    Except String (List String) :=
  get_instagram_data username imgs_limit "user" "posts" false

end Instagram

/-- Dictionary overwrite on an association list (python `d[k] = v`). -/
def setKey (k : String) (v : α) : List (String × α) → List (String × α)
  | [] => [(k, v)]
  | (k2, w) :: rest => if k2 = k then (k2, v) :: rest else (k2, w) :: setKey k v rest

namespace Locks

/-!
Interleaving model of the per-session locking discipline of `chat.py`, at
the granularity of the asyncio event loop: a task runs uninterrupted between
suspension points, and the only suspension points in these handlers are
`await lock.acquire()` on a lock that is currently held (acquiring a free
`asyncio.Lock` returns without yielding) and the awaited external calls of a
chat turn (`Runner.run`, `asyncio.gather`). Consequences modelled here:

* A `/chat` task evaluates `session_locks[session_id]` (the defaultdict
  creating a fresh lock for an absent key), acquires the lock if it is free,
  and performs its first stored-history mutation (the in-place user append)
  all in one slice before suspending at the awaited agent run; its second
  stored-history mutation (the final history assignment) shares a slice with
  the lock release. If the lock is held, the task keeps a reference to that
  lock OBJECT and waits on it.
* A `/clear` task's `async with` body contains no `await`, so once its
  acquire succeeds the conditional `del conversation_histories[sid]` /
  `del session_locks[sid]` and the release all happen within one slice.

A waiting task in this model may resume whenever its captured lock object is
free, which over-approximates asyncio's FIFO wakeup order; the safety
theorem quantifies over all these schedules.
-/

inductive TaskKind where
  | chatTask
  | clearTask
deriving DecidableEq, Repr

/-- Local state of one request task: which endpoint it runs, its session id,
its program counter, and the lock object (identified by a numeral) that its
`async with session_locks[session_id]` expression captured. -/
structure TaskSt where
  kind : TaskKind
  sid : String
  pc : Nat
  myLock : Nat
deriving DecidableEq, Repr

instance : Inhabited TaskSt := ⟨⟨TaskKind.chatTask, "", 0, 0⟩⟩

/-- Global configuration: the task array, the `session_locks` dict (session
id to lock-object identity), the set of lock objects currently held, a
fresh-object counter, and `conversation_histories` (here recording, per
session, which task appended which of its two history mutations). -/
structure SysCfg where
  ntasks : Nat
  tasks : Nat → TaskSt
  locks : List (String × Nat)
  held : List Nat
  nextId : Nat
  hist : List (String × List (Nat × Nat))

def updTask (f : Nat → TaskSt) (t : Nat) (x : TaskSt) : Nat → TaskSt :=
  fun i => if i = t then x else f i

/-- Append one mutation record to a session's history (defaultdict access). -/
def histAppend (sid : String) (e : Nat × Nat)
    (h : List (String × List (Nat × Nat))) : List (String × List (Nat × Nat)) :=
  setKey sid ((lookupKey sid h).getD [] ++ [e]) h

/-- One event-loop slice of task `t`.

Chat task program counters: `0` not yet scheduled — one slice looks up (or
lazily creates) the session's lock; if it is free the slice also acquires it
and appends the inbound user Turn (the first history mutation), suspending
at the awaited agent run (`pc = 2`); if it is held the task captures the
lock object and waits on it (`pc = 1`). `1` waiting — the same
acquire-and-append slice runs once the captured object is free. `2` holding
the lock, suspended at the awaited external calls; the next slice performs
the final history assignment (the second mutation), releases, and finishes
(`pc = 3`).

Clear task: `0` one slice looks up (or lazily creates) the lock; when it is
free the whole handler runs in that same slice — acquire, conditionally
delete the history and the lock-table entry, release, done (`pc = 2`); the
entry the defaultdict created for an absent key is deleted again in the same
slice when the history existed. When the lock is held the task captures it
and waits (`pc = 1`); once free, the whole body runs in the waking slice. -/
def step (c : SysCfg) (t : Nat) : SysCfg :=
  if t < c.ntasks then
    let ts := c.tasks t
    match ts.kind with
    | TaskKind.chatTask =>
      if ts.pc = 0 then
        match lookupKey ts.sid c.locks with
        | some l =>
          if l ∈ c.held then
            { c with tasks := updTask c.tasks t { ts with pc := 1, myLock := l } }
          else
            { c with held := l :: c.held,
                     hist := histAppend ts.sid (t, 1) c.hist,
                     tasks := updTask c.tasks t { ts with pc := 2, myLock := l } }
        | none =>
          { c with locks := (ts.sid, c.nextId) :: c.locks,
                   nextId := c.nextId + 1,
                   held := c.nextId :: c.held,
                   hist := histAppend ts.sid (t, 1) c.hist,
                   tasks := updTask c.tasks t { ts with pc := 2, myLock := c.nextId } }
      else if ts.pc = 1 then
        if ts.myLock ∈ c.held then c
        else
          { c with held := ts.myLock :: c.held,
                   hist := histAppend ts.sid (t, 1) c.hist,
                   tasks := updTask c.tasks t { ts with pc := 2 } }
      else if ts.pc = 2 then
        { c with hist := histAppend ts.sid (t, 2) c.hist,
                 held := c.held.erase ts.myLock,
                 tasks := updTask c.tasks t { ts with pc := 3 } }
      else c
    | TaskKind.clearTask =>
      if ts.pc = 0 then
        match lookupKey ts.sid c.locks with
        | some l =>
          if l ∈ c.held then
            { c with tasks := updTask c.tasks t { ts with pc := 1, myLock := l } }
          else if (lookupKey ts.sid c.hist).isSome then
            { c with hist := eraseKey ts.sid c.hist,
                     locks := eraseKey ts.sid c.locks,
                     tasks := updTask c.tasks t { ts with pc := 2, myLock := l } }
          else
            { c with tasks := updTask c.tasks t { ts with pc := 2, myLock := l } }
        | none =>
          if (lookupKey ts.sid c.hist).isSome then
            { c with locks := eraseKey ts.sid c.locks,
                     nextId := c.nextId + 1,
                     hist := eraseKey ts.sid c.hist,
                     tasks := updTask c.tasks t { ts with pc := 2, myLock := c.nextId } }
          else
            { c with locks := (ts.sid, c.nextId) :: c.locks,
                     nextId := c.nextId + 1,
                     tasks := updTask c.tasks t { ts with pc := 2, myLock := c.nextId } }
      else if ts.pc = 1 then
        if ts.myLock ∈ c.held then c
        else if (lookupKey ts.sid c.hist).isSome then
          { c with hist := eraseKey ts.sid c.hist,
                   locks := eraseKey ts.sid c.locks,
                   tasks := updTask c.tasks t { ts with pc := 2 } }
        else
          { c with tasks := updTask c.tasks t { ts with pc := 2 } }
      else c
  else c

/-- Run a schedule (a list of task indices) from a configuration. -/
def run (c : SysCfg) : List Nat → SysCfg
  | [] => c
  | t :: rest => run (step c t) rest

/-- Task `i` is a chat task inside its history-mutating critical section
(holding the lock, between its two stored-history mutations). -/
def inCS (c : SysCfg) (i : Nat) : Bool :=
  decide ((c.tasks i).pc = 2 ∧ (c.tasks i).kind = TaskKind.chatTask)

/-- Task-local predicate (chat-only systems): the task holds its lock. -/
def ownsLock (t : TaskSt) : Prop := t.pc = 2

/-- A system of chat tasks only, one per listed session id, all at their
initial program counter, with empty lock table. -/
def initSys (sids : List String) (h0 : List (String × List (Nat × Nat))) : SysCfg :=
  ⟨sids.length, fun i => ⟨TaskKind.chatTask, sids.getD i "", 0, 0⟩, [], [], 0, h0⟩

/-- Inductive invariant of chat-only systems: all tasks are chat tasks,
unindexed tasks never start, a started task's captured lock object is exactly
the lock-table entry for its session, lock holders appear in the held set, a
lock object has at most one holder, the held set has no duplicates, and every
lock-object identity in the table or held set is below the fresh counter. -/
def Inv (c : SysCfg) : Prop :=
  (∀ i, (c.tasks i).kind = TaskKind.chatTask) ∧
  (∀ i, c.ntasks ≤ i → (c.tasks i).pc = 0) ∧
  (∀ i, 1 ≤ (c.tasks i).pc →
    lookupKey (c.tasks i).sid c.locks = some (c.tasks i).myLock) ∧
  (∀ i, ownsLock (c.tasks i) → (c.tasks i).myLock ∈ c.held) ∧
  (∀ i j, ownsLock (c.tasks i) → ownsLock (c.tasks j) →
    (c.tasks i).myLock = (c.tasks j).myLock → i = j) ∧
  c.held.Nodup ∧
  (∀ p ∈ c.locks, p.2 < c.nextId) ∧
  (∀ l ∈ c.held, l < c.nextId)

/-- Concrete configuration for the clear/chat race on session `"s"`, from
empty stores: task 0 is a `/chat` turn, task 1 a `/clear`, tasks 2 and 3 are
further `/chat` turns. -/
def clearRaceCfg : SysCfg :=
  ⟨4,
   fun i => if i = 1 then ⟨TaskKind.clearTask, "s", 0, 0⟩
     else ⟨TaskKind.chatTask, "s", 0, 0⟩,
   [], [], 0, []⟩

/-- The realizable schedule: chat 0 creates lock 0, acquires it and appends
(slice 1); while it is suspended at its agent run, the clear (task 1) and
chat 2 find lock 0 held and queue as waiters on it (slices 2-3); chat 0
finishes and releases (slice 4); the woken clear runs its whole body in one
slice, deleting the history AND the lock-table entry, then releasing
(slice 5); the woken chat 2 acquires the now-orphaned lock 0 and appends
(slice 6); newly arrived chat 3 finds no lock-table entry, creates fresh
lock 1, acquires it and appends (slice 7). Tasks 2 and 3 are now both inside
their same-session critical sections. -/
def clearRaceSched : List Nat := [0, 1, 2, 0, 1, 2, 3]

/-- Continuation of the schedule: chats 2 and 3 interleave their two history
mutations. -/
def clearRaceSchedFull : List Nat := clearRaceSched ++ [2, 3]

end Locks

/-! ## Helper lemmas -/

theorem lookupKey_eraseKey (k : String) (l : List (String × α)) :
    lookupKey k (eraseKey k l) = none := by
  induction l with
  | nil => rfl
  | cons hd tl ih =>
    obtain ⟨k2, v⟩ := hd
    by_cases h : k2 = k
    · simp [eraseKey, h, ih]
    · simp [eraseKey, lookupKey, h, ih]

theorem lookupKey_some_mem (k : String) (v : α) (l : List (String × α))
    (h : lookupKey k l = some v) : (k, v) ∈ l := by
  induction l with
  | nil => exact absurd h (by simp [lookupKey])
  | cons hd tl ih =>
    obtain ⟨k2, w⟩ := hd
    by_cases hk : k2 = k
    · subst hk
      simp [lookupKey] at h
      subst h
      exact List.mem_cons_self _ _
    · simp [lookupKey, hk] at h
      exact List.mem_cons_of_mem _ (ih h)

theorem str_append_ne_empty (s t : String) (h : 0 < s.length) : s ++ t ≠ "" := by
  intro he
  have hl := congrArg String.length he
  have h0 : ("" : String).length = 0 := rfl
  rw [String.length_append, h0] at hl
  omega

namespace Locks

theorem inv_step (c : SysCfg) (t : Nat) (h : Inv c) : Inv (step c t) := by
  obtain ⟨hk, hoob, hlk, hheld, huniq, hnd, hG, hH⟩ := h
  have hbound : ∀ i, 1 ≤ (c.tasks i).pc → (c.tasks i).myLock < c.nextId :=
    fun i hpi => hG _ (lookupKey_some_mem _ _ _ (hlk i hpi))
  by_cases ht : t < c.ntasks
  · have hkt := hk t
    by_cases hp0 : (c.tasks t).pc = 0
    · rcases hl : lookupKey (c.tasks t).sid c.locks with _ | l
      · -- the defaultdict creates a fresh lock; it is free, so the slice also
        -- acquires it and performs the first history mutation
        simp [step, ht, hp0, hkt, hl]
        refine ⟨?_, ?_, ?_, ?_, ?_, ?_, ?_, ?_⟩
        · intro i
          by_cases hit : i = t
          · simp [updTask, hit, hkt]
          · simpa [updTask, hit] using hk i
        · intro i hi
          have hi2 : c.ntasks ≤ i := hi
          have hit : i ≠ t := by omega
          simpa [updTask, hit] using hoob i hi2
        · intro i hpi
          by_cases hit : i = t
          · simp [updTask, hit, lookupKey]
          · simp only [updTask, if_neg hit] at hpi ⊢
            have hlki := hlk i hpi
            by_cases hs2 : (c.tasks t).sid = (c.tasks i).sid
            · rw [hs2] at hl; rw [hl] at hlki; exact absurd hlki (by simp)
            · simp [lookupKey, hs2, hlki]
        · intro i hio
          by_cases hit : i = t
          · simp [updTask, hit]
          · simp only [updTask, if_neg hit] at hio ⊢
            exact List.mem_cons_of_mem _ (hheld i hio)
        · intro i j hio hjo hml
          by_cases hit : i = t
          · by_cases hjt : j = t
            · omega
            · simp [updTask, hit, hjt, ownsLock] at hml hjo
              have := hbound j (by omega)
              omega
          · by_cases hjt : j = t
            · simp [updTask, hit, hjt, ownsLock] at hml hio
              have := hbound i (by omega)
              omega
            · simp only [updTask, if_neg hit, if_neg hjt] at hio hjo hml
              exact huniq i j hio hjo hml
        · exact List.nodup_cons.mpr
            ⟨fun hmem => absurd (hH _ hmem) (by omega), hnd⟩
        · intro p hp
          rcases List.mem_cons.mp hp with hp1 | hp2
          · subst hp1
            exact Nat.lt_succ_self _
          · exact Nat.lt_succ_of_lt (hG p hp2)
        · intro l2 hl2
          rcases List.mem_cons.mp hl2 with h1 | h2
          · subst h1
            exact Nat.lt_succ_self _
          · exact Nat.lt_succ_of_lt (hH l2 h2)
      · by_cases hmem : l ∈ c.held
        · -- the lock is held: capture the object and wait on it
          simp [step, ht, hp0, hkt, hl, hmem]
          refine ⟨?_, ?_, ?_, ?_, ?_, hnd, hG, hH⟩
          · intro i
            by_cases hit : i = t
            · simp [updTask, hit, hkt]
            · simpa [updTask, hit] using hk i
          · intro i hi
            have hi2 : c.ntasks ≤ i := hi
            have hit : i ≠ t := by omega
            simpa [updTask, hit] using hoob i hi2
          · intro i hpi
            by_cases hit : i = t
            · simp [updTask, hit]
              exact hl
            · simp only [updTask, if_neg hit] at hpi ⊢
              exact hlk i hpi
          · intro i hio
            by_cases hit : i = t
            · simp [updTask, hit, ownsLock] at hio
            · simp only [updTask, if_neg hit] at hio ⊢
              exact hheld i hio
          · intro i j hio hjo hml
            by_cases hit : i = t
            · simp [updTask, hit, ownsLock] at hio
            · by_cases hjt : j = t
              · simp [updTask, hjt, ownsLock] at hjo
              · simp only [updTask, if_neg hit, if_neg hjt] at hio hjo hml
                exact huniq i j hio hjo hml
        · -- the lock is free: acquire it and perform the first mutation
          simp [step, ht, hp0, hkt, hl, hmem]
          refine ⟨?_, ?_, ?_, ?_, ?_, ?_, hG, ?_⟩
          · intro i
            by_cases hit : i = t
            · simp [updTask, hit, hkt]
            · simpa [updTask, hit] using hk i
          · intro i hi
            have hi2 : c.ntasks ≤ i := hi
            have hit : i ≠ t := by omega
            simpa [updTask, hit] using hoob i hi2
          · intro i hpi
            by_cases hit : i = t
            · simp [updTask, hit]
              exact hl
            · simp only [updTask, if_neg hit] at hpi ⊢
              exact hlk i hpi
          · intro i hio
            by_cases hit : i = t
            · simp [updTask, hit]
            · simp only [updTask, if_neg hit] at hio ⊢
              exact List.mem_cons_of_mem _ (hheld i hio)
          · intro i j hio hjo hml
            by_cases hit : i = t
            · by_cases hjt : j = t
              · omega
              · simp [updTask, hit, hjt, ownsLock] at hml hjo
                exfalso
                apply hmem
                rw [hml]
                exact hheld j hjo
            · by_cases hjt : j = t
              · simp [updTask, hit, hjt, ownsLock] at hml hio
                exfalso
                apply hmem
                rw [← hml]
                exact hheld i hio
              · simp only [updTask, if_neg hit, if_neg hjt] at hio hjo hml
                exact huniq i j hio hjo hml
          · exact List.nodup_cons.mpr ⟨hmem, hnd⟩
          · intro l2 hl2
            rcases List.mem_cons.mp hl2 with h1 | h2
            · subst h1
              exact hG _ (lookupKey_some_mem _ _ _ hl)
            · exact hH l2 h2
    · by_cases hp1 : (c.tasks t).pc = 1
      · by_cases hmem : (c.tasks t).myLock ∈ c.held
        · have hid : step c t = c := by simp [step, ht, hp0, hp1, hkt, hmem]
          rw [hid]
          exact ⟨hk, hoob, hlk, hheld, huniq, hnd, hG, hH⟩
        · -- the captured lock is free: acquire and perform the first mutation
          simp [step, ht, hp0, hp1, hkt, hmem]
          refine ⟨?_, ?_, ?_, ?_, ?_, ?_, hG, ?_⟩
          · intro i
            by_cases hit : i = t
            · simp [updTask, hit, hkt]
            · simpa [updTask, hit] using hk i
          · intro i hi
            have hi2 : c.ntasks ≤ i := hi
            have hit : i ≠ t := by omega
            simpa [updTask, hit] using hoob i hi2
          · intro i hpi
            by_cases hit : i = t
            · simp [updTask, hit]
              exact hlk t (by omega)
            · simp only [updTask, if_neg hit] at hpi ⊢
              exact hlk i hpi
          · intro i hio
            by_cases hit : i = t
            · simp [updTask, hit]
            · simp only [updTask, if_neg hit] at hio ⊢
              exact List.mem_cons_of_mem _ (hheld i hio)
          · intro i j hio hjo hml
            by_cases hit : i = t
            · by_cases hjt : j = t
              · omega
              · simp [updTask, hit, hjt, ownsLock] at hml hjo
                exfalso
                apply hmem
                rw [hml]
                exact hheld j hjo
            · by_cases hjt : j = t
              · simp [updTask, hit, hjt, ownsLock] at hml hio
                exfalso
                apply hmem
                rw [← hml]
                exact hheld i hio
              · simp only [updTask, if_neg hit, if_neg hjt] at hio hjo hml
                exact huniq i j hio hjo hml
          · exact List.nodup_cons.mpr ⟨hmem, hnd⟩
          · intro l2 hl2
            rcases List.mem_cons.mp hl2 with h1 | h2
            · subst h1
              exact hbound t (by omega)
            · exact hH l2 h2
      · by_cases hp2 : (c.tasks t).pc = 2
        · -- final mutation, release, finish — one slice
          have howns : ownsLock (c.tasks t) := hp2
          simp [step, ht, hp0, hp1, hp2, hkt]
          refine ⟨?_, ?_, ?_, ?_, ?_, List.Nodup.erase _ hnd, hG, ?_⟩
          · intro i
            by_cases hit : i = t
            · simp [updTask, hit, hkt]
            · simpa [updTask, hit] using hk i
          · intro i hi
            have hi2 : c.ntasks ≤ i := hi
            have hit : i ≠ t := by omega
            simpa [updTask, hit] using hoob i hi2
          · intro i hpi
            by_cases hit : i = t
            · simp [updTask, hit]
              exact hlk t (by omega)
            · simp only [updTask, if_neg hit] at hpi ⊢
              exact hlk i hpi
          · intro i hio
            by_cases hit : i = t
            · simp [updTask, hit, ownsLock] at hio
            · simp only [updTask, if_neg hit] at hio ⊢
              have hne : (c.tasks i).myLock ≠ (c.tasks t).myLock := by
                intro he
                exact hit (huniq i t hio howns he)
              exact (List.mem_erase_of_ne hne).mpr (hheld i hio)
          · intro i j hio hjo hml
            by_cases hit : i = t
            · simp [updTask, hit, ownsLock] at hio
            · by_cases hjt : j = t
              · simp [updTask, hjt, ownsLock] at hjo
              · simp only [updTask, if_neg hit, if_neg hjt] at hio hjo hml
                exact huniq i j hio hjo hml
          · intro l2 hl2
            exact hH l2 (List.mem_of_mem_erase hl2)
        · have hid : step c t = c := by simp [step, ht, hp0, hp1, hp2, hkt]
          rw [hid]
          exact ⟨hk, hoob, hlk, hheld, huniq, hnd, hG, hH⟩
  · have hid : step c t = c := by simp [step, ht]
    rw [hid]
    exact ⟨hk, hoob, hlk, hheld, huniq, hnd, hG, hH⟩

theorem inv_run (sched : List Nat) (c : SysCfg) (h : Inv c) :
    Inv (run c sched) := by
  induction sched generalizing c with
  | nil => exact h
  | cons t rest ih => exact ih _ (inv_step c t h)

theorem inv_init (sids : List String) (h0 : List (String × List (Nat × Nat))) :
    Inv (initSys sids h0) := by
  refine ⟨fun i => rfl, fun i _ => rfl, ?_, ?_, ?_, List.nodup_nil, ?_, ?_⟩
  · intro i hpi
    simp [initSys] at hpi
  · intro i hio
    simp [initSys, ownsLock] at hio
  · intro i j hio hjo hml
    simp [initSys, ownsLock] at hio
  · intro p hp
    simp [initSys] at hp
  · intro l2 hl2
    simp [initSys] at hl2

end Locks

/-! ## Claim theorems -/

theorem failsWithReason_mk (d o : String) (loc : Option String) (e : String)
    (he : e ≠ "") : failsWithReason ⟨d, o, loc, some e, false⟩ :=
  ⟨rfl, e, rfl, he⟩

/-- C10: the Instagram extraction step is a constant stub:
`get_instagram_images_urls` returns the same hard-coded 16-element image-URL
list for every username and every `imgs_limit` — neither argument affects the
result, the list is never empty, and the limit is never applied. -/
theorem instagram_stub_constant (username : String) (imgs_limit : Nat) :
    Instagram.get_instagram_images_urls username imgs_limit =
      Except.ok Instagram.instagram_image_urls ∧
    Instagram.instagram_image_urls.length = 16 ∧
    Instagram.instagram_image_urls ≠ [] := by
  refine ⟨?_, by decide, by decide⟩
  simp [Instagram.get_instagram_images_urls, Instagram.get_instagram_data]

/-- C3: `analyze_single_url` (both the `chat.py` and the
`url_data_extractor.py` version) is a total function into `ImageAnalysis`:
every failure mode — invalid URL format, network error, timeout, non-image
content type, missing or malformed model output, any other exception — is
returned as a value with `is_image = false` and a non-empty human-readable
error, never raised to the caller. -/
theorem analyze_single_url_never_raises (url : String) (valid : Bool)
    (cr : Chat.RunOutcome) (head : UrlDataExtractor.HeadOutcome)
    (ur : UrlDataExtractor.RunOutcome) :
    (Chat.failureMode valid cr = true →
      failsWithReason (Chat.analyze_single_url url valid cr)) ∧
    (UrlDataExtractor.failureMode valid head ur = true →
      failsWithReason (UrlDataExtractor.analyze_single_url url valid head ur)) := by
  constructor
  · intro hf
    cases valid
    · exact failsWithReason_mk _ _ _ _ (str_append_ne_empty _ _ (by decide))
    · cases cr with
      | raisesClient m =>
          exact failsWithReason_mk _ _ _ _ (str_append_ne_empty _ _ (by decide))
      | raisesTimeout => exact failsWithReason_mk _ _ _ _ (by decide)
      | raisesOther m =>
          by_cases hv : Chat.containsValidationErr m
          · have h1 : Chat.analyze_single_url url true (.raisesOther m) =
                ⟨"", "", none, some ("Model output validation failed: " ++ m), false⟩ := by
              simp [Chat.analyze_single_url, hv]
            rw [h1]
            exact failsWithReason_mk _ _ _ _ (str_append_ne_empty _ _ (by decide))
          · have h1 : Chat.analyze_single_url url true (.raisesOther m) =
                ⟨"", "", none, some ("Analysis failed: " ++ m), false⟩ := by
              simp [Chat.analyze_single_url, hv]
            rw [h1]
            exact failsWithReason_mk _ _ _ _ (str_append_ne_empty _ _ (by decide))
      | returns o =>
          cases o with
          | none => exact failsWithReason_mk _ _ _ _ (by decide)
          | some a => simp [Chat.failureMode] at hf
  · intro hf
    cases valid
    · exact failsWithReason_mk _ _ _ _ (str_append_ne_empty _ _ (by decide))
    · cases head with
      | raisesClient m =>
          exact failsWithReason_mk _ _ _ _ (str_append_ne_empty _ _ (by decide))
      | raisesTimeout => exact failsWithReason_mk _ _ _ _ (by decide)
      | raisesOther m =>
          by_cases hv : UrlDataExtractor.contentPolicyErr m
          · have h1 : UrlDataExtractor.analyze_single_url url true (.raisesOther m) ur =
                ⟨"", "", none, some ("Analysis error: " ++ m), false⟩ := by
              simp [UrlDataExtractor.analyze_single_url, hv]
            rw [h1]
            exact failsWithReason_mk _ _ _ _ (str_append_ne_empty _ _ (by decide))
          · have h1 : UrlDataExtractor.analyze_single_url url true (.raisesOther m) ur =
                ⟨"", "", none, some ("Analysis failed: " ++ m), false⟩ := by
              simp [UrlDataExtractor.analyze_single_url, hv]
            rw [h1]
            exact failsWithReason_mk _ _ _ _ (str_append_ne_empty _ _ (by decide))
      | ok ct =>
          by_cases hct : pyStartsWith (pyLower ct) "image/"
          · cases ur with
            | returns a =>
                exfalso
                simp [UrlDataExtractor.failureMode, hct] at hf
            | raisesClient m =>
                have h1 : UrlDataExtractor.analyze_single_url url true (.ok ct)
                      (.raisesClient m) =
                    ⟨"", "", none, some ("Network error: " ++ m), false⟩ := by
                  simp [UrlDataExtractor.analyze_single_url, hct]
                rw [h1]
                exact failsWithReason_mk _ _ _ _ (str_append_ne_empty _ _ (by decide))
            | raisesTimeout =>
                have h1 : UrlDataExtractor.analyze_single_url url true (.ok ct)
                      .raisesTimeout =
                    ⟨"", "", none, some "Timeout accessing URL", false⟩ := by
                  simp [UrlDataExtractor.analyze_single_url, hct]
                rw [h1]
                exact failsWithReason_mk _ _ _ _ (by decide)
            | raisesOther m =>
                by_cases hv : UrlDataExtractor.contentPolicyErr m
                · have h1 : UrlDataExtractor.analyze_single_url url true (.ok ct)
                        (.raisesOther m) =
                      ⟨"", "", none, some ("Analysis error: " ++ m), false⟩ := by
                    simp [UrlDataExtractor.analyze_single_url, hct, hv]
                  rw [h1]
                  exact failsWithReason_mk _ _ _ _ (str_append_ne_empty _ _ (by decide))
                · have h1 : UrlDataExtractor.analyze_single_url url true (.ok ct)
                        (.raisesOther m) =
                      ⟨"", "", none, some ("Analysis failed: " ++ m), false⟩ := by
                    simp [UrlDataExtractor.analyze_single_url, hct, hv]
                  rw [h1]
                  exact failsWithReason_mk _ _ _ _ (str_append_ne_empty _ _ (by decide))
          · have h1 : UrlDataExtractor.analyze_single_url url true (.ok ct) ur =
                ⟨"", "", none,
                  some ("URL content type is \x27" ++ pyLower ct ++ "\x27, not an image."),
                  false⟩ := by
              simp [UrlDataExtractor.analyze_single_url, hct]
            rw [h1]
            refine failsWithReason_mk _ _ _ _ ?_
            apply str_append_ne_empty
            rw [String.length_append]
            have hp : 0 < ("URL content type is \x27" : String).length := by decide
            omega

theorem analyze_single_url_never_raises_witness :
    failsWithReason (Chat.analyze_single_url "u" false Chat.RunOutcome.raisesTimeout) ∧
    failsWithReason (UrlDataExtractor.analyze_single_url "u" true
      (UrlDataExtractor.HeadOutcome.ok "text/html") UrlDataExtractor.RunOutcome.raisesTimeout) :=
  ⟨(analyze_single_url_never_raises "u" false Chat.RunOutcome.raisesTimeout
      (UrlDataExtractor.HeadOutcome.ok "text/html")
      UrlDataExtractor.RunOutcome.raisesTimeout).1 (by decide),
   (analyze_single_url_never_raises "u" true Chat.RunOutcome.raisesTimeout
      (UrlDataExtractor.HeadOutcome.ok "text/html")
      UrlDataExtractor.RunOutcome.raisesTimeout).2 (by decide)⟩

/-- C9: every `ImageAnalysis` returned by `chat.py`'s `analyze_single_url`
keeps the success flag consistent with the error field — a non-empty error
string forces `is_image = false` — and the downstream
`successful_analyses` filter never admits an entry whose error field is
truthy. -/
theorem error_implies_not_image (url : String) (valid : Bool) (run : Chat.RunOutcome)
    (e : String) (he : (Chat.analyze_single_url url valid run).error = some e)
    (hne : e ≠ "") :
    (Chat.analyze_single_url url valid run).is_image = false ∧
    ∀ (results : List ImageAnalysis) (r : ImageAnalysis),
      r ∈ Chat.successful_analyses results → errTruthy r.error = false := by
  constructor
  · cases valid
    · rfl
    · cases run with
      | raisesClient m => rfl
      | raisesTimeout => rfl
      | raisesOther m =>
          by_cases hv : Chat.containsValidationErr m <;>
            simp [Chat.analyze_single_url, hv]
      | returns o =>
          cases o with
          | none => rfl
          | some a =>
              by_cases herr : errTruthy a.error
              · simp [Chat.analyze_single_url, herr]
              · exfalso
                simp only [Chat.analyze_single_url, Bool.not_true, herr,
                  if_neg, Bool.false_eq_true, if_false] at he
                apply hne
                have h2 := herr
                rw [he] at h2
                simpa [errTruthy] using h2
  · intro results r hr
    simp only [Chat.successful_analyses] at hr
    rcases List.mem_filter.mp hr with ⟨_, hp⟩
    simp at hp
    exact hp.2

theorem error_implies_not_image_witness :
    (Chat.analyze_single_url "u" false Chat.RunOutcome.raisesTimeout).is_image = false :=
  (error_implies_not_image "u" false Chat.RunOutcome.raisesTimeout
    "Invalid URL format: u" (by decide) (by decide)).1

/-- C4 counterexample: the claim says a turn that fails with an internal
error leaves the stored history exactly as before the turn. On the code the
inbound user message is appended in place to the stored list before the
`try` block, so after a failing turn on a fresh session the stored history is
non-empty. -/
theorem internal_error_keeps_user_turn_cex :
    (Chat.chat_endpoint [] "hello" Chat.RunnerRun.raises (fun _ _ => default)
        (Chat.SynthRun.returns none)).response = none ∧
    (Chat.chat_endpoint [] "hello" Chat.RunnerRun.raises (fun _ _ => default)
        (Chat.SynthRun.returns none)).storedHistory ≠ [] := by
  exact ⟨rfl, by decide⟩

/-- C4 (amended): a chat turn that ends with an unexpected internal error —
the profiler run raising, or the synthesizer run raising after being invoked
— returns the generic server-error response (HTTP 500) and leaves the stored
history equal to the pre-turn history PLUS the inbound user Turn; all other
partial work of the failing turn is discarded. -/
theorem internal_error_discards_partial_work (hist : List Turn) (userMsg : String)
    (analyze : AnalyzeOracle) (synth : Chat.SynthRun)
    (items : List Chat.NewItem) (errAttr : Bool) :
    ((Chat.chat_endpoint hist userMsg Chat.RunnerRun.raises analyze synth).response = none ∧
      (Chat.chat_endpoint hist userMsg Chat.RunnerRun.raises analyze synth).storedHistory =
        hist ++ [⟨"user", userMsg⟩]) ∧
    ((Chat.chat_endpoint hist userMsg (Chat.RunnerRun.returns items errAttr) analyze
        Chat.SynthRun.raises).synthCalled = true →
      (Chat.chat_endpoint hist userMsg (Chat.RunnerRun.returns items errAttr) analyze
        Chat.SynthRun.raises).response = none ∧
      (Chat.chat_endpoint hist userMsg (Chat.RunnerRun.returns items errAttr) analyze
        Chat.SynthRun.raises).storedHistory = hist ++ [⟨"user", userMsg⟩]) := by
  constructor
  · exact ⟨rfl, rfl⟩
  · intro hcall
    rcases hx : Chat.extractedUrlsOf items with _ | urls
    · cases errAttr <;> simp [Chat.chat_endpoint, hx] at hcall
    · by_cases hemp : urls.isEmpty
      · simp [Chat.chat_endpoint, hx, hemp] at hcall
      · by_cases hsucc :
            (Chat.successful_analyses (Chat.all_analysis_results urls analyze)).isEmpty
        · simp [Chat.chat_endpoint, hx, hemp, hsucc] at hcall
        · constructor <;> simp [Chat.chat_endpoint, hx, hemp, hsucc]

theorem internal_error_discards_partial_work_witness :
    (Chat.chat_endpoint [] "m"
        (Chat.RunnerRun.returns [Chat.NewItem.toolCallGetImages (some ["u"])] false)
        (fun _ _ => ⟨"d", "o", none, none, true⟩) Chat.SynthRun.raises).response = none ∧
    (Chat.chat_endpoint [] "m"
        (Chat.RunnerRun.returns [Chat.NewItem.toolCallGetImages (some ["u"])] false)
        (fun _ _ => ⟨"d", "o", none, none, true⟩) Chat.SynthRun.raises).storedHistory =
      [] ++ [⟨"user", "m"⟩] :=
  (internal_error_discards_partial_work [] "m" (fun _ _ => ⟨"d", "o", none, none, true⟩)
    (Chat.SynthRun.returns none) [Chat.NewItem.toolCallGetImages (some ["u"])] false).2
    (by decide)

/-- C6: the session clear operation is total — clearing an id with no stored
history answers `"not_found_or_already_cleared"` without an error, clearing
an existing session answers `"cleared"`, clearing twice leaves the same
stored-history state as clearing once, and the next turn on a cleared id
starts from the empty history that the defaultdict materializes. -/
theorem clear_endpoint_idempotent (st : Chat.SessionStore) (sid : String) :
    lookupKey sid (Chat.clear_endpoint st sid).state.conversation_histories = none ∧
    (Chat.clear_endpoint (Chat.clear_endpoint st sid).state sid).state.conversation_histories =
      (Chat.clear_endpoint st sid).state.conversation_histories ∧
    (Chat.clear_endpoint (Chat.clear_endpoint st sid).state sid).status =
      "not_found_or_already_cleared" ∧
    (lookupKey sid st.conversation_histories = none →
      (Chat.clear_endpoint st sid).status = "not_found_or_already_cleared" ∧
      (Chat.clear_endpoint st sid).state.conversation_histories =
        st.conversation_histories) ∧
    (∀ h0, lookupKey sid st.conversation_histories = some h0 →
      (Chat.clear_endpoint st sid).status = "cleared") ∧
    Chat.getOrCreateHistory (Chat.clear_endpoint st sid).state sid = [] := by
  by_cases hs : (lookupKey sid st.conversation_histories).isSome
  · have h1 : lookupKey sid (Chat.clear_endpoint st sid).state.conversation_histories
        = none := by
      simp [Chat.clear_endpoint, hs, lookupKey_eraseKey]
    refine ⟨h1, ?_, ?_, ?_, ?_, ?_⟩
    · simp [Chat.clear_endpoint, hs, lookupKey_eraseKey]
    · simp [Chat.clear_endpoint, hs, lookupKey_eraseKey]
    · intro hnone
      rw [hnone] at hs
      simp at hs
    · intro h0 hsome
      simp [Chat.clear_endpoint, hsome]
    · simp [Chat.getOrCreateHistory, h1]
  · have hnone : lookupKey sid st.conversation_histories = none := by
      cases hv : lookupKey sid st.conversation_histories
      · rfl
      · rw [hv] at hs; simp at hs
    refine ⟨?_, ?_, ?_, ?_, ?_, ?_⟩
    · simp [Chat.clear_endpoint, hnone]
    · simp [Chat.clear_endpoint, hnone]
    · simp [Chat.clear_endpoint, hnone]
    · intro _
      exact ⟨by simp [Chat.clear_endpoint, hnone],
        by simp [Chat.clear_endpoint, hnone]⟩
    · intro h0 hsome
      rw [hsome] at hnone
      exact Option.noConfusion hnone
    · simp [Chat.getOrCreateHistory, Chat.clear_endpoint, hnone]

theorem clear_endpoint_idempotent_witness :
    (Chat.clear_endpoint ⟨[("a", [⟨"user", "x"⟩])], []⟩ "a").status = "cleared" :=
  (clear_endpoint_idempotent ⟨[("a", [⟨"user", "x"⟩])], []⟩ "a").2.2.2.2.1
    [⟨"user", "x"⟩] (by decide)

/-- C8: every chat turn that completes without an internal server error
returns a status drawn from the fixed vocabulary of eight values (`ok`,
`analyzing`, `synthesizing`, `profile_generated`, `analysis_failed`,
`synthesis_failed`, `no_urls_found`, `agent_error`), never any other
string. -/
theorem chat_status_vocabulary (hist : List Turn) (userMsg : String)
    (runner : Chat.RunnerRun) (analyze : AnalyzeOracle) (synth : Chat.SynthRun)
    (resp : Chat.ChatResponse)
    (hresp : (Chat.chat_endpoint hist userMsg runner analyze synth).response = some resp) :
    resp.status = "ok" ∨ resp.status = "analyzing" ∨ resp.status = "synthesizing" ∨
    resp.status = "profile_generated" ∨ resp.status = "analysis_failed" ∨
    resp.status = "synthesis_failed" ∨ resp.status = "no_urls_found" ∨
    resp.status = "agent_error" := by
  cases runner with
  | raises => simp [Chat.chat_endpoint] at hresp
  | returns items errAttr =>
    rcases hx : Chat.extractedUrlsOf items with _ | urls
    · cases errAttr
      · simp [Chat.chat_endpoint, hx] at hresp
        subst hresp
        exact Or.inl rfl
      · simp [Chat.chat_endpoint, hx] at hresp
        subst hresp
        exact Or.inr (Or.inr (Or.inr (Or.inr (Or.inr (Or.inr (Or.inr rfl))))))
    · by_cases hemp : urls.isEmpty
      · simp [Chat.chat_endpoint, hx, hemp] at hresp
        subst hresp
        exact Or.inr (Or.inr (Or.inr (Or.inr (Or.inr (Or.inr (Or.inl rfl))))))
      · by_cases hsucc :
            (Chat.successful_analyses (Chat.all_analysis_results urls analyze)).isEmpty
        · simp [Chat.chat_endpoint, hx, hemp, hsucc] at hresp
          subst hresp
          exact Or.inr (Or.inr (Or.inr (Or.inr (Or.inl rfl))))
        · cases synth with
          | raises => simp [Chat.chat_endpoint, hx, hemp, hsucc] at hresp
          | returns o =>
            cases o with
            | none =>
                simp [Chat.chat_endpoint, hx, hemp, hsucc] at hresp
                subst hresp
                exact Or.inr (Or.inr (Or.inr (Or.inr (Or.inr (Or.inl rfl)))))
            | some profile =>
                simp [Chat.chat_endpoint, hx, hemp, hsucc] at hresp
                subst hresp
                exact Or.inr (Or.inr (Or.inr (Or.inl rfl)))

theorem chat_status_vocabulary_witness :
    (Chat.ChatResponse.mk "How can I help you further?" "ok").status = "ok" ∨
    (Chat.ChatResponse.mk "How can I help you further?" "ok").status = "analyzing" ∨
    (Chat.ChatResponse.mk "How can I help you further?" "ok").status = "synthesizing" ∨
    (Chat.ChatResponse.mk "How can I help you further?" "ok").status = "profile_generated" ∨
    (Chat.ChatResponse.mk "How can I help you further?" "ok").status = "analysis_failed" ∨
    (Chat.ChatResponse.mk "How can I help you further?" "ok").status = "synthesis_failed" ∨
    (Chat.ChatResponse.mk "How can I help you further?" "ok").status = "no_urls_found" ∨
    (Chat.ChatResponse.mk "How can I help you further?" "ok").status = "agent_error" :=
  chat_status_vocabulary [] "hi" (Chat.RunnerRun.returns [] false) (fun _ _ => default)
    (Chat.SynthRun.returns none) ⟨"How can I help you further?", "ok"⟩ (by decide)

theorem assistantCount_append (l1 l2 : List Turn) :
    assistantCount (l1 ++ l2) = assistantCount l1 + assistantCount l2 := by
  induction l1 with
  | nil => simp [assistantCount]
  | cons a l ih =>
    show (if a.role == "assistant" then 1 else 0) + assistantCount (l ++ l2) =
      ((if a.role == "assistant" then 1 else 0) + assistantCount l) + assistantCount l2
    rw [ih]
    omega

theorem assistantCount_user (m : String) : assistantCount [⟨"user", m⟩] = 0 := rfl

theorem assistantCount_assistant (m : String) :
    assistantCount [⟨"assistant", m⟩] = 1 := rfl

theorem assistantCount_tool_assistant (m1 m2 : String) :
    assistantCount [⟨"tool", m1⟩, ⟨"assistant", m2⟩] = 1 := rfl

/-- C1: the fan-out analysis step over a k-element URL list always collects
exactly k `ImageAnalysis` entries, entry i being the result of the i-th
per-URL call, regardless of completion order (`asyncio.gather` collects in
input order) and regardless of which calls fail; `chat_endpoint`'s
`all_analysis_results` and `url_data_extractor.py`'s `process_urls` agree. -/
theorem fanout_preserves_count_and_order (urls : List String) (analyze : AnalyzeOracle)
    (i : Nat) (hi : i < urls.length) :
    (Chat.all_analysis_results urls analyze).length = urls.length ∧
    UrlDataExtractor.process_urls urls analyze = Chat.all_analysis_results urls analyze ∧
    (Chat.all_analysis_results urls analyze).getD i default = analyze i (urls.getD i "") := by
  have hfilter : Chat.all_analysis_results urls analyze = gatherAnalyses urls analyze := by
    simp [Chat.all_analysis_results, Chat.isImageAnalysisInstance]
  refine ⟨?_, ?_, ?_⟩
  · rw [hfilter]
    simp [gatherAnalyses]
  · rw [hfilter]
    cases urls with
    | nil => simp at hi
    | cons a l => simp [UrlDataExtractor.process_urls]
  · rw [hfilter]
    simp [gatherAnalyses, List.getD_eq_getElem?_getD, List.getElem?_map,
      List.getElem?_range, hi]

theorem fanout_preserves_count_and_order_witness :
    (Chat.all_analysis_results ["a", "b"]
      (fun i _ => ⟨"", "", none, none, i == 1⟩)).length = (["a", "b"] : List String).length ∧
    UrlDataExtractor.process_urls ["a", "b"] (fun i _ => ⟨"", "", none, none, i == 1⟩) =
      Chat.all_analysis_results ["a", "b"] (fun i _ => ⟨"", "", none, none, i == 1⟩) ∧
    (Chat.all_analysis_results ["a", "b"]
      (fun i _ => ⟨"", "", none, none, i == 1⟩)).getD 1 default =
      (fun (i : Nat) (_ : String) => (⟨"", "", none, none, i == 1⟩ : ImageAnalysis)) 1
        ((["a", "b"] : List String).getD 1 "") :=
  fanout_preserves_count_and_order ["a", "b"] (fun i _ => ⟨"", "", none, none, i == 1⟩)
    1 (by decide)

/-- C2: when URL extraction produced a non-empty URL list but the subset of
successful analyses (`is_image` true and no truthy error) is empty, the
profile synthesizer is never invoked and the turn answers the fixed
clarification message with status `analysis_failed`. -/
theorem analysis_failed_skips_synthesizer (hist : List Turn) (userMsg : String)
    (items : List Chat.NewItem) (errAttr : Bool) (analyze : AnalyzeOracle)
    (synth : Chat.SynthRun) (urls : List String)
    (hx : Chat.extractedUrlsOf items = some urls) (hne : urls ≠ [])
    (hfail : Chat.successful_analyses (Chat.all_analysis_results urls analyze) = []) :
    (Chat.chat_endpoint hist userMsg (Chat.RunnerRun.returns items errAttr) analyze
      synth).synthCalled = false ∧
    (Chat.chat_endpoint hist userMsg (Chat.RunnerRun.returns items errAttr) analyze
      synth).response = some ⟨Chat.noImagesMsg, "analysis_failed"⟩ ∧
    (Chat.chat_endpoint hist userMsg (Chat.RunnerRun.returns items errAttr) analyze
      synth).storedHistory =
      hist ++ [⟨"user", userMsg⟩] ++ items.map Chat.renderNewItem ++
        [⟨"assistant", Chat.noImagesMsg⟩] := by
  have hempty : urls.isEmpty = false := by
    cases urls with
    | nil => exact absurd rfl hne
    | cons a l => rfl
  have hsucc : (Chat.successful_analyses
      (Chat.all_analysis_results urls analyze)).isEmpty = true := by
    rw [hfail]
    rfl
  have hresp : Chat.respFinalize Chat.noImagesMsg true = Chat.noImagesMsg := rfl
  refine ⟨?_, ?_, ?_⟩ <;>
    simp [Chat.chat_endpoint, hx, hempty, hsucc, hresp]

theorem analysis_failed_skips_synthesizer_witness :
    (Chat.chat_endpoint [] "look"
      (Chat.RunnerRun.returns [Chat.NewItem.toolCallGetImages (some ["u"])] false)
      (fun _ _ => ⟨"", "", none, some "boom", false⟩)
      (Chat.SynthRun.returns none)).synthCalled = false ∧
    (Chat.chat_endpoint [] "look"
      (Chat.RunnerRun.returns [Chat.NewItem.toolCallGetImages (some ["u"])] false)
      (fun _ _ => ⟨"", "", none, some "boom", false⟩)
      (Chat.SynthRun.returns none)).response =
      some ⟨Chat.noImagesMsg, "analysis_failed"⟩ ∧
    (Chat.chat_endpoint [] "look"
      (Chat.RunnerRun.returns [Chat.NewItem.toolCallGetImages (some ["u"])] false)
      (fun _ _ => ⟨"", "", none, some "boom", false⟩)
      (Chat.SynthRun.returns none)).storedHistory =
      [] ++ [⟨"user", "look"⟩] ++
        [Chat.NewItem.toolCallGetImages (some ["u"])].map Chat.renderNewItem ++
        [⟨"assistant", Chat.noImagesMsg⟩] :=
  analysis_failed_skips_synthesizer [] "look" [Chat.NewItem.toolCallGetImages (some ["u"])]
    false (fun _ _ => ⟨"", "", none, some "boom", false⟩) (Chat.SynthRun.returns none)
    ["u"] rfl (by decide) (by decide)

/-- C5 counterexample: the claim says every successfully completed turn
appends exactly one assistant Turn. A direct-path turn in which the agent
emitted no message output completes with status `ok` and a generic response,
but stores only the user Turn — zero assistant Turns. -/
theorem successful_turn_zero_assistant_cex :
    (Chat.chat_endpoint [] "hi" (Chat.RunnerRun.returns [] false) (fun _ _ => default)
        (Chat.SynthRun.returns none)).response =
      some ⟨"How can I help you further?", "ok"⟩ ∧
    assistantCount
      (Chat.chat_endpoint [] "hi" (Chat.RunnerRun.returns [] false) (fun _ _ => default)
        (Chat.SynthRun.returns none)).storedHistory = 0 ∧
    (Chat.chat_endpoint [] "hi" (Chat.RunnerRun.returns [] false) (fun _ _ => default)
        (Chat.SynthRun.returns none)).storedHistory = [⟨"user", "hi"⟩] := by
  refine ⟨rfl, rfl, rfl⟩

/-- C5 (amended): every chat turn stores the pre-turn history extended with
the inbound user Turn (so the history never shrinks and grows by at least
one); every successfully completed turn in which the URL-extraction tool
fired appends exactly one assistant Turn beyond the agent run's own items;
a direct-path turn stores exactly the assistant Turns among the agent run's
items, which may be none. -/
theorem turn_history_growth (hist : List Turn) (userMsg : String)
    (items : List Chat.NewItem) (errAttr : Bool) (analyze : AnalyzeOracle)
    (synth : Chat.SynthRun) :
    (∀ runner2 : Chat.RunnerRun, ∃ rest,
      (Chat.chat_endpoint hist userMsg runner2 analyze synth).storedHistory =
        hist ++ ⟨"user", userMsg⟩ :: rest) ∧
    (∀ urls resp, Chat.extractedUrlsOf items = some urls →
      (Chat.chat_endpoint hist userMsg (Chat.RunnerRun.returns items errAttr) analyze
        synth).response = some resp →
      assistantCount (Chat.chat_endpoint hist userMsg (Chat.RunnerRun.returns items errAttr)
        analyze synth).storedHistory =
        assistantCount hist + assistantCount (items.map Chat.renderNewItem) + 1) ∧
    (Chat.extractedUrlsOf items = none → errAttr = false →
      assistantCount (Chat.chat_endpoint hist userMsg (Chat.RunnerRun.returns items errAttr)
        analyze synth).storedHistory =
        assistantCount hist + assistantCount (items.map Chat.renderNewItem)) := by
  refine ⟨?_, ?_, ?_⟩
  · intro runner2
    cases runner2 with
    | raises => exact ⟨[], by simp [Chat.chat_endpoint]⟩
    | returns items2 err2 =>
      rcases hx : Chat.extractedUrlsOf items2 with _ | urls
      · cases err2
        · exact ⟨items2.map Chat.renderNewItem, by simp [Chat.chat_endpoint, hx]⟩
        · exact ⟨[⟨"assistant", Chat.agentErrorMsg⟩], by simp [Chat.chat_endpoint, hx]⟩
      · by_cases hemp : urls.isEmpty
        · exact ⟨items2.map Chat.renderNewItem ++ [⟨"assistant", Chat.noUrlsFoundMsg⟩],
            by simp [Chat.chat_endpoint, hx, hemp]⟩
        · by_cases hsucc : (Chat.successful_analyses
              (Chat.all_analysis_results urls analyze)).isEmpty
          · exact ⟨items2.map Chat.renderNewItem ++ [⟨"assistant", Chat.noImagesMsg⟩],
              by simp [Chat.chat_endpoint, hx, hemp, hsucc]⟩
          · cases synth with
            | raises => exact ⟨[], by simp [Chat.chat_endpoint, hx, hemp, hsucc]⟩
            | returns o =>
              cases o with
              | none =>
                  exact ⟨items2.map Chat.renderNewItem ++
                      [⟨"assistant", Chat.synthesisFailedMsg⟩],
                    by simp [Chat.chat_endpoint, hx, hemp, hsucc]⟩
              | some profile =>
                  exact ⟨items2.map Chat.renderNewItem ++
                      [⟨"tool", Chat.model_dump_json profile⟩,
                        ⟨"assistant", Chat.summaryForUser profile.summary⟩],
                    by simp [Chat.chat_endpoint, hx, hemp, hsucc]⟩
  · intro urls resp hx hresp
    by_cases hemp : urls.isEmpty
    · have hstored : (Chat.chat_endpoint hist userMsg (Chat.RunnerRun.returns items errAttr)
          analyze synth).storedHistory =
          ((hist ++ [⟨"user", userMsg⟩]) ++ items.map Chat.renderNewItem) ++
            [⟨"assistant", Chat.noUrlsFoundMsg⟩] := by
        simp [Chat.chat_endpoint, hx, hemp]
      rw [hstored, assistantCount_append, assistantCount_append, assistantCount_append,
        assistantCount_user, assistantCount_assistant]
      omega
    · by_cases hsucc : (Chat.successful_analyses
          (Chat.all_analysis_results urls analyze)).isEmpty
      · have hstored : (Chat.chat_endpoint hist userMsg (Chat.RunnerRun.returns items errAttr)
            analyze synth).storedHistory =
            ((hist ++ [⟨"user", userMsg⟩]) ++ items.map Chat.renderNewItem) ++
              [⟨"assistant", Chat.noImagesMsg⟩] := by
          simp [Chat.chat_endpoint, hx, hemp, hsucc]
        rw [hstored, assistantCount_append, assistantCount_append, assistantCount_append,
          assistantCount_user, assistantCount_assistant]
        omega
      · cases synth with
        | raises => simp [Chat.chat_endpoint, hx, hemp, hsucc] at hresp
        | returns o =>
          cases o with
          | none =>
              have hstored : (Chat.chat_endpoint hist userMsg
                  (Chat.RunnerRun.returns items errAttr) analyze
                  (Chat.SynthRun.returns none)).storedHistory =
                  ((hist ++ [⟨"user", userMsg⟩]) ++ items.map Chat.renderNewItem) ++
                    [⟨"assistant", Chat.synthesisFailedMsg⟩] := by
                simp [Chat.chat_endpoint, hx, hemp, hsucc]
              rw [hstored, assistantCount_append, assistantCount_append,
                assistantCount_append, assistantCount_user, assistantCount_assistant]
              omega
          | some profile =>
              have hstored : (Chat.chat_endpoint hist userMsg
                  (Chat.RunnerRun.returns items errAttr) analyze
                  (Chat.SynthRun.returns (some profile))).storedHistory =
                  ((hist ++ [⟨"user", userMsg⟩]) ++ items.map Chat.renderNewItem) ++
                    [⟨"tool", Chat.model_dump_json profile⟩,
                      ⟨"assistant", Chat.summaryForUser profile.summary⟩] := by
                simp [Chat.chat_endpoint, hx, hemp, hsucc]
              rw [hstored, assistantCount_append, assistantCount_append,
                assistantCount_append, assistantCount_user, assistantCount_tool_assistant]
              omega
  · intro hx herr
    subst herr
    have hstored : (Chat.chat_endpoint hist userMsg (Chat.RunnerRun.returns items false)
        analyze synth).storedHistory =
        (hist ++ [⟨"user", userMsg⟩]) ++ items.map Chat.renderNewItem := by
      simp [Chat.chat_endpoint, hx]
    rw [hstored, assistantCount_append, assistantCount_append, assistantCount_user]
    omega

theorem turn_history_growth_witness :
    (assistantCount (Chat.chat_endpoint [] "look"
        (Chat.RunnerRun.returns [Chat.NewItem.toolCallGetImages (some ["u"])] false)
        (fun _ _ => default) (Chat.SynthRun.returns none)).storedHistory =
      assistantCount [] +
        assistantCount ([Chat.NewItem.toolCallGetImages (some ["u"])].map Chat.renderNewItem)
        + 1) ∧
    (assistantCount (Chat.chat_endpoint [] "hi" (Chat.RunnerRun.returns [] false)
        (fun _ _ => default) (Chat.SynthRun.returns none)).storedHistory =
      assistantCount [] +
        assistantCount (([] : List Chat.NewItem).map Chat.renderNewItem)) :=
  ⟨(turn_history_growth [] "look" [Chat.NewItem.toolCallGetImages (some ["u"])] false
      (fun _ _ => default) (Chat.SynthRun.returns none)).2.1 ["u"]
      ⟨Chat.noImagesMsg, "analysis_failed"⟩ rfl (by decide),
   (turn_history_growth [] "hi" [] false (fun _ _ => default)
      (Chat.SynthRun.returns none)).2.2 rfl rfl⟩

/-- C7 counterexample: the mutual-exclusion guarantee does NOT survive an
interleaved session-clear. While a chat turn holds the session lock at its
awaited agent run, a clear request and a second chat turn queue as waiters
on that lock object; the first turn releases, the woken clear then deletes
both the history and the lock-table entry (its whole body runs in one
event-loop slice) and releases, the waiting chat turn acquires the
now-orphaned lock object, and a later chat turn gets a freshly created lock
from the defaultdict — leaving two chat turns for the same session inside
their critical sections simultaneously, interleaving their history
mutations. -/
theorem clear_breaks_lock_cex :
    Locks.inCS (Locks.run Locks.clearRaceCfg Locks.clearRaceSched) 2 = true ∧
    Locks.inCS (Locks.run Locks.clearRaceCfg Locks.clearRaceSched) 3 = true ∧
    ((Locks.run Locks.clearRaceCfg Locks.clearRaceSched).tasks 2).sid =
      ((Locks.run Locks.clearRaceCfg Locks.clearRaceSched).tasks 3).sid ∧
    lookupKey "s" (Locks.run Locks.clearRaceCfg Locks.clearRaceSchedFull).hist =
      some [(2, 1), (3, 1), (2, 2), (3, 2)] := by
  refine ⟨?_, ?_, ?_, ?_⟩ <;> decide

/-- C7 (amended): in the absence of clear requests, the per-session lock of
`chat_endpoint` gives mutual exclusion: under every schedule of any set of
chat tasks, two distinct tasks for the same session id are never both inside
their history-mutating critical section, so concurrent turns for one session
never interleave; an interleaved `/clear`, however, deletes the lock object
out from under queued waiters and breaks the guarantee (see the
counterexample). -/
theorem same_session_turns_mutual_exclusion (sids : List String)
    (h0 : List (String × List (Nat × Nat))) (sched : List Nat) (i j : Nat)
    (hi : Locks.inCS (Locks.run (Locks.initSys sids h0) sched) i = true)
    (hj : Locks.inCS (Locks.run (Locks.initSys sids h0) sched) j = true)
    (hs : ((Locks.run (Locks.initSys sids h0) sched).tasks i).sid =
      ((Locks.run (Locks.initSys sids h0) sched).tasks j).sid) :
    i = j := by
  obtain ⟨hk, hoob, hlk, hheld, huniq, hnd, hG, hH⟩ :=
    Locks.inv_run sched _ (Locks.inv_init sids h0)
  obtain ⟨h2i, hki⟩ := of_decide_eq_true hi
  obtain ⟨h2j, hkj⟩ := of_decide_eq_true hj
  have hoi : Locks.ownsLock ((Locks.run (Locks.initSys sids h0) sched).tasks i) := h2i
  have hoj : Locks.ownsLock ((Locks.run (Locks.initSys sids h0) sched).tasks j) := h2j
  have hl1 := hlk i (by omega)
  have hl2 := hlk j (by omega)
  rw [hs] at hl1
  exact huniq i j hoi hoj (Option.some.inj (hl1.symm.trans hl2))

theorem same_session_turns_mutual_exclusion_witness : (0 : Nat) = 0 :=
  same_session_turns_mutual_exclusion ["s"] [] [0] 0 0 (by decide) (by decide) rfl
